import Mathlib

/-!
Verification of the youtube-dashboard backend (server.js and its models).

The server proxies a small set of YouTube Data API operations behind an
Express REST API: a Token Manager built on a Google OAuth2 client
(`refreshAccessToken`, `ensureValidToken`), stateless request handlers for
video fetch/update, comment add/reply/delete, note storage with regex
search, and an activity log sorted newest-first.

Each handler is embedded as a pure function.  External effects are made
explicit: the outcome of every platform (YouTube API) call is an input of
type `Outcome`, the handler output records the HTTP response, the exact
list of platform calls issued, whether the Token Manager was consulted,
and the activity-log records written.  JavaScript truthiness of the
optional string/number fields is modelled by `jsTruthyStr` / `jsTruthyInt`,
JS `String.prototype.trim` by `jsTrim`, and JS `String.prototype.includes`
by `strContains`.
-/

/-- Truthiness of a possibly-absent JS string: `undefined` and `""` are falsy. -/
def jsTruthyStr : Option String → Bool
  | none => false
  | some s => s ≠ ""

/-- Truthiness of a possibly-absent JS number: `undefined` and `0` are falsy. -/
def jsTruthyInt : Option Int → Bool
  | none => false
  | some n => n ≠ 0

/-- JS `a || b` on an optional string `a` with string fallback `b`. -/
def jsOrStr (a : Option String) (b : String) : String :=
  match a with
  | some s => if s = "" then b else s
  | none => b

/-- Remove leading and trailing whitespace from a character list. -/
def trimChars (l : List Char) : List Char :=
  ((l.dropWhile Char.isWhitespace).reverse.dropWhile Char.isWhitespace).reverse

/-- Model of JS `String.prototype.trim`. -/
def jsTrim (s : String) : String := String.mk (trimChars s.data)

/-- Does `nd` occur as a contiguous sublist of `hay`? -/
def containsSub : List Char → List Char → Bool
  | [], nd => nd.isEmpty
  | h :: t, nd => nd.isPrefixOf (h :: t) || containsSub t nd

/-- Model of JS `String.prototype.includes` (used by the error classifiers). -/
def strContains (s pat : String) : Bool := containsSub s.data pat.data

/-! ## Token Manager (server.js lines 50-78)

The OAuth2 client's credential object.  The external provider
(`oauth2Client.refreshAccessToken()`) is modelled by an input
`provider : Option Credentials`: `some creds` is a successful token
exchange returning `creds`, `none` is a thrown provider error. -/

/-- The OAuth2 client credentials held in memory (Token State). -/
structure Credentials where
  access_token : Option String
  expiry_date : Option Int
  refresh_token : Option String
deriving DecidableEq, Repr

/-- Embedding of `refreshAccessToken` (server.js 50-60): on provider success
`setCredentials(credentials)` replaces the state and the function returns
`true`; on a thrown provider error it returns `false` and the state is
untouched.  Result is (new state, returned boolean). -/
def refreshAccessToken (st : Credentials) (provider : Option Credentials) :
    Credentials × Bool :=
  match provider with
  | some creds => (creds, true)
  | none => (st, false)

/-- Result of `ensureValidToken`: the state afterwards, the returned boolean,
and whether `refreshAccessToken` was invoked. -/
structure EnsureResult where
  state : Credentials
  ret : Bool
  refreshed : Bool
deriving DecidableEq, Repr

/-- The refresh condition of `ensureValidToken` (server.js 69):
`!accessToken || (expiry && Date.now() >= expiry)` with JS truthiness. -/
def tokenStale (st : Credentials) (now : Int) : Bool :=
  !jsTruthyStr st.access_token ||
    (jsTruthyInt st.expiry_date && decide (st.expiry_date.getD 0 ≤ now))

/-- Embedding of `ensureValidToken` (server.js 63-78):
`if (!accessToken || (expiry && Date.now() >= expiry)) return await
refreshAccessToken(); return true;`. -/
def ensureValidToken (st : Credentials) (now : Int) (provider : Option Credentials) :
    EnsureResult :=
  if tokenStale st now then
    let r := refreshAccessToken st provider
    ⟨r.1, r.2, true⟩
  else
    ⟨st, true, false⟩

/-- The stale condition spelled out: token falsy, or a truthy expiry at or
before `now`. -/
theorem tokenStale_iff (st : Credentials) (now : Int) :
    tokenStale st now = true ↔
      (st.access_token = none ∨ st.access_token = some "") ∨
      (∃ e, st.expiry_date = some e ∧ e ≠ 0 ∧ e ≤ now) := by
  rcases st with ⟨a, ex, rt⟩
  rcases a with _ | s <;> rcases ex with _ | e <;>
    simp [tokenStale, jsTruthyStr, jsTruthyInt]

/-- Evaluation of `ensureValidToken` when the stale condition holds. -/
theorem ensureValidToken_eq_pos (st : Credentials) (now : Int)
    (provider : Option Credentials) (h : tokenStale st now = true) :
    ensureValidToken st now provider =
      ⟨(refreshAccessToken st provider).1, (refreshAccessToken st provider).2, true⟩ := by
  unfold ensureValidToken
  rw [if_pos h]

/-- Evaluation of `ensureValidToken` when the stale condition fails. -/
theorem ensureValidToken_eq_neg (st : Credentials) (now : Int)
    (provider : Option Credentials) (h : ¬ tokenStale st now = true) :
    ensureValidToken st now provider = ⟨st, true, false⟩ := by
  unfold ensureValidToken
  rw [if_neg h]

/-- C1: `ensureValidToken` refreshes iff the access token is absent (in JS,
`undefined` or the empty string) or an expiry is recorded (a nonzero
timestamp) that is at or past `now`; when it does not refresh it returns
`true` with the state untouched; when it refreshes it returns exactly what
`refreshAccessToken` returns and adopts the state `refreshAccessToken`
leaves. -/
theorem ensureValidToken_spec (st : Credentials) (now : Int)
    (provider : Option Credentials) :
    ((ensureValidToken st now provider).refreshed = true ↔
      (st.access_token = none ∨ st.access_token = some "") ∨
      (∃ e, st.expiry_date = some e ∧ e ≠ 0 ∧ e ≤ now)) ∧
    ((ensureValidToken st now provider).refreshed = false →
      (ensureValidToken st now provider).ret = true ∧
      (ensureValidToken st now provider).state = st) ∧
    ((ensureValidToken st now provider).refreshed = true →
      (ensureValidToken st now provider).ret = (refreshAccessToken st provider).2 ∧
      (ensureValidToken st now provider).state = (refreshAccessToken st provider).1) := by
  by_cases h : tokenStale st now = true
  · rw [ensureValidToken_eq_pos st now provider h]
    exact ⟨⟨fun _ => (tokenStale_iff st now).mp h, fun _ => rfl⟩,
      fun hf => absurd hf (by simp), fun _ => ⟨rfl, rfl⟩⟩
  · rw [ensureValidToken_eq_neg st now provider h]
    exact ⟨⟨fun hf => absurd hf (by simp), fun hr => absurd ((tokenStale_iff st now).mpr hr) h⟩,
      fun _ => ⟨rfl, rfl⟩, fun hf => absurd hf (by simp)⟩

/-- Closed instance of `ensureValidToken_spec`: with no access token the call
refreshes. -/
theorem ensureValidToken_spec_witness :
    (ensureValidToken ⟨none, none, some "rt"⟩ 5
      (some ⟨some "tok", some 100, some "rt"⟩)).refreshed = true :=
  (ensureValidToken_spec ⟨none, none, some "rt"⟩ 5
      (some ⟨some "tok", some 100, some "rt"⟩)).1.mpr (Or.inl (Or.inl rfl))

/-- C2: on provider success `refreshAccessToken` returns `true` and the new
state carries exactly the provider's access token and expiry; on a thrown
provider error it returns `false` and no field of the credentials changes. -/
theorem refreshAccessToken_spec (st : Credentials) :
    (∀ creds : Credentials,
      (refreshAccessToken st (some creds)).2 = true ∧
      (refreshAccessToken st (some creds)).1.access_token = creds.access_token ∧
      (refreshAccessToken st (some creds)).1.expiry_date = creds.expiry_date) ∧
    ((refreshAccessToken st none).2 = false ∧
      (refreshAccessToken st none).1.access_token = st.access_token ∧
      (refreshAccessToken st none).1.expiry_date = st.expiry_date ∧
      (refreshAccessToken st none).1.refresh_token = st.refresh_token) := by
  exact ⟨fun creds => ⟨rfl, rfl, rfl⟩, rfl, rfl, rfl, rfl⟩

/-- Closed instance of `refreshAccessToken_spec` at a concrete state and
provider response. -/
theorem refreshAccessToken_spec_witness :
    (refreshAccessToken ⟨some "old", some 1, some "rt"⟩
      (some ⟨some "new", some 9, some "rt"⟩)).1.access_token = some "new" :=
  ((refreshAccessToken_spec ⟨some "old", some 1, some "rt"⟩).1
    ⟨some "new", some 9, some "rt"⟩).2.1

/-! ## API Gateway data model

Each Express handler is embedded as a pure function.  The outcome of every
YouTube API call the handler may issue is an explicit input; the output
records the HTTP response, the platform calls actually issued (in order),
whether `ensureValidToken` was consulted (`tokenChecked`), and the
`Log.create` records written. -/

/-- Outcome of one platform call: a successful response value, or a thrown
error carrying `error.code` and `error.message`. -/
inductive Outcome (α : Type) where
  | ok (val : α)
  | thrown (code : Nat) (msg : String)
deriving DecidableEq, Repr

/-- Snippet of a video resource.  `categoryId` stands for the snippet fields
the handlers never touch, carried along by the `...currentSnippet` spread. -/
structure Snippet where
  title : String
  description : String
  categoryId : String
deriving DecidableEq, Repr

/-- A video resource as returned by `youtube.videos.list`. -/
structure Video where
  id : String
  snippet : Snippet
deriving DecidableEq, Repr

/-- A note document (models/note.model.js). -/
structure Note where
  videoId : Option String
  text : String
  tags : List String
deriving DecidableEq, Repr

/-- An activity-log record as passed to `Log.create`: an action tag and a
key/value details payload (`none` models a JS `undefined` field value). -/
structure LogRecord where
  action : String
  details : List (String × Option String)
deriving DecidableEq, Repr

/-- A stored log document: the record plus the `createdAt` timestamp added
by the store (`timestamps: true` in models/log.model.js). -/
structure LogEntry where
  record : LogRecord
  createdAt : Nat
deriving DecidableEq, Repr

/-- Body of an HTTP response sent by a handler. -/
inductive Body where
  | payload (data : String)
  | video (v : Video)
  | message (m : String)
  | err (error : String) (message : String) (details : Option String)
  | notes (ns : List Note)
  | logs (ls : List LogEntry)
deriving DecidableEq, Repr

/-- An HTTP response: status code and JSON body. -/
structure HttpResponse where
  status : Nat
  body : Body
deriving DecidableEq, Repr

/-- One outbound call to the YouTube API, with the request data the
handlers put in it. -/
inductive PlatformCall where
  | videosList (part : String) (id : String)
  | videosUpdate (id : String) (snippet : Snippet)
  | commentThreadsInsert (videoId : String) (textOriginal : String)
  | commentsInsert (parentId : String) (textOriginal : String)
  | commentsDelete (id : String)
deriving DecidableEq, Repr

/-- Everything observable about one handler run. -/
structure HandlerResult where
  response : HttpResponse
  calls : List PlatformCall
  tokenChecked : Bool
  logs : List LogRecord
deriving DecidableEq, Repr

/-! ## Handlers -/

/-- Embedding of `GET /api/video/:id` (server.js 114-153).  `tokenValid` is
the boolean `ensureValidToken` returned; `listRes` is the outcome of the
`youtube.videos.list` call. -/
def getVideoHandler (videoId : String) (tokenValid : Bool)
    (listRes : Outcome (List Video)) : HandlerResult :=
  if !tokenValid then
    ⟨⟨401, .err "Authentication required" "Please login again" none⟩, [], true, []⟩
  else
    match listRes with
    | .ok items =>
        if items.isEmpty then
          ⟨⟨404, .err "Video not found" "No video found with the provided ID" none⟩,
            [.videosList "snippet,statistics" videoId], true, []⟩
        else
          ⟨⟨200, .video (items.headD ⟨"", ⟨"", "", ""⟩⟩)⟩,
            [.videosList "snippet,statistics" videoId], true,
            [⟨"FETCH_VIDEO", [("videoId", some videoId)]⟩]⟩
    | .thrown _ msg =>
        ⟨⟨500, .err "Failed to fetch video" msg none⟩,
          [.videosList "snippet,statistics" videoId], true,
          [⟨"FETCH_VIDEO_ERROR", [("videoId", some videoId), ("error", some msg)]⟩]⟩

/-- Embedding of `PUT /api/video/:id` (server.js 156-222).  `listRes` is the
outcome of the `youtube.videos.list` read, `updateRes` of the
`youtube.videos.update` write; the snippet sent merges the supplied fields
over the current snippet with JS `||`. -/
def putVideoHandler (videoId : String) (title description : Option String)
    (tokenValid : Bool) (listRes : Outcome (List Video))
    (updateRes : Outcome String) : HandlerResult :=
  if !jsTruthyStr title && !jsTruthyStr description then
    ⟨⟨400, .err "Invalid input" "Title or description is required" none⟩, [], false, []⟩
  else if !tokenValid then
    ⟨⟨401, .err "Authentication required" "Please login again" none⟩, [], true, []⟩
  else
    match listRes with
    | .ok items =>
        if items.isEmpty then
          ⟨⟨404, .err "Video not found" "No video found with the provided ID" none⟩,
            [.videosList "snippet" videoId], true, []⟩
        else
          let cur := (items.headD ⟨"", ⟨"", "", ""⟩⟩).snippet
          let updated : Snippet :=
            { cur with
                title := jsOrStr title cur.title,
                description := jsOrStr description cur.description }
          match updateRes with
          | .ok d =>
              ⟨⟨200, .payload d⟩,
                [.videosList "snippet" videoId, .videosUpdate videoId updated], true,
                [⟨"UPDATE_VIDEO",
                  [("videoId", some videoId), ("title", title),
                   ("description", description)]⟩]⟩
          | .thrown _ msg =>
              ⟨⟨500, .err "Failed to update video" msg none⟩,
                [.videosList "snippet" videoId, .videosUpdate videoId updated], true,
                [⟨"UPDATE_VIDEO_ERROR", [("videoId", some videoId), ("error", some msg)]⟩]⟩
    | .thrown _ msg =>
        ⟨⟨500, .err "Failed to update video" msg none⟩,
          [.videosList "snippet" videoId], true,
          [⟨"UPDATE_VIDEO_ERROR", [("videoId", some videoId), ("error", some msg)]⟩]⟩

/-- Error classification of the add-comment catch block (server.js 287-310):
from `error.code` and `error.message` to the HTTP status and message sent.
There is no 404 branch: a thrown 404 keeps the 500 default. -/
def classifyAddCommentError (code : Nat) (msg : String) : Nat × String :=
  if code = 400 then
    if strContains msg "commentsDisabled" then
      (400, "Comments are disabled for this video")
    else if strContains msg "videoNotFound" then
      (404, "Video not found")
    else if strContains msg "forbidden" then
      (403, "You don't have permission to comment on this video")
    else (400, msg)
  else if code = 401 then (401, "Authentication required. Please login again.")
  else if code = 403 then
    (403, "Permission denied. Check your YouTube API quota or permissions.")
  else (500, "Failed to add comment")

/-- Embedding of `POST /api/video/:id/comment` (server.js 225-323).
`checkRes` is the outcome of the existence-check `youtube.videos.list`,
`insertRes` of `youtube.commentThreads.insert`. -/
def addCommentHandler (videoId : String) (text : Option String) (tokenValid : Bool)
    (checkRes : Outcome (List Video)) (insertRes : Outcome String) : HandlerResult :=
  match text with
  | none =>
      ⟨⟨400, .err "Invalid input" "Comment text is required" none⟩, [], false, []⟩
  | some t =>
      if jsTrim t = "" then
        ⟨⟨400, .err "Invalid input" "Comment text is required" none⟩, [], false, []⟩
      else if t.length > 10000 then
        ⟨⟨400, .err "Invalid input" "Comment text is too long (max 10000 characters)" none⟩,
          [], false, []⟩
      else if !tokenValid then
        ⟨⟨401, .err "Authentication required" "Please login again" none⟩, [], true, []⟩
      else
        match checkRes with
        | .ok items =>
            if items.isEmpty then
              ⟨⟨404, .err "Video not found" "No video found with the provided ID" none⟩,
                [.videosList "snippet,status" videoId], true, []⟩
            else
              match insertRes with
              | .ok d =>
                  ⟨⟨200, .payload d⟩,
                    [.videosList "snippet,status" videoId,
                     .commentThreadsInsert videoId (jsTrim t)], true,
                    [⟨"ADD_COMMENT", [("videoId", some videoId), ("text", some t)]⟩]⟩
              | .thrown code msg =>
                  ⟨⟨(classifyAddCommentError code msg).1,
                      .err "Comment failed" (classifyAddCommentError code msg).2 (some msg)⟩,
                    [.videosList "snippet,status" videoId,
                     .commentThreadsInsert videoId (jsTrim t)], true,
                    [⟨"ADD_COMMENT_ERROR",
                      [("videoId", some videoId), ("text", some t), ("error", some msg)]⟩]⟩
        | .thrown code msg =>
            ⟨⟨(classifyAddCommentError code msg).1,
                .err "Comment failed" (classifyAddCommentError code msg).2 (some msg)⟩,
              [.videosList "snippet,status" videoId], true,
              [⟨"ADD_COMMENT_ERROR",
                [("videoId", some videoId), ("text", some t), ("error", some msg)]⟩]⟩

/-- Error classification of the reply catch block (server.js 373-385). -/
def classifyReplyError (code : Nat) (msg : String) : Nat × String :=
  if code = 400 then (400, msg)
  else if code = 401 then (401, "Authentication required. Please login again.")
  else if code = 403 then
    (403, "Permission denied. Check your YouTube API quota or permissions.")
  else if code = 404 then
    (404, "Comment not found or you don't have permission to reply.")
  else (500, "Failed to reply to comment")

/-- Embedding of `POST /api/comment/:id/reply` (server.js 326-398).  The
handler issues only the `youtube.comments.insert` call: there is no
existence-check read. -/
def replyCommentHandler (commentId : String) (text : Option String)
    (tokenValid : Bool) (insertRes : Outcome String) : HandlerResult :=
  match text with
  | none => ⟨⟨400, .err "Invalid input" "Reply text is required" none⟩, [], false, []⟩
  | some t =>
      if jsTrim t = "" then
        ⟨⟨400, .err "Invalid input" "Reply text is required" none⟩, [], false, []⟩
      else if t.length > 10000 then
        ⟨⟨400, .err "Invalid input" "Reply text is too long (max 10000 characters)" none⟩,
          [], false, []⟩
      else if !tokenValid then
        ⟨⟨401, .err "Authentication required" "Please login again" none⟩, [], true, []⟩
      else
        match insertRes with
        | .ok d =>
            ⟨⟨200, .payload d⟩, [.commentsInsert commentId (jsTrim t)], true,
              [⟨"REPLY_COMMENT", [("commentId", some commentId), ("text", some t)]⟩]⟩
        | .thrown code msg =>
            ⟨⟨(classifyReplyError code msg).1,
                .err "Reply failed" (classifyReplyError code msg).2 (some msg)⟩,
              [.commentsInsert commentId (jsTrim t)], true,
              [⟨"REPLY_COMMENT_ERROR",
                [("commentId", some commentId), ("text", some t), ("error", some msg)]⟩]⟩

/-- Error classification of the delete catch block (server.js 428-440). -/
def classifyDeleteError (code : Nat) (msg : String) : Nat × String :=
  if code = 400 then (400, msg)
  else if code = 401 then (401, "Authentication required. Please login again.")
  else if code = 403 then
    (403, "Permission denied. You can only delete your own comments.")
  else if code = 404 then (404, "Comment not found.")
  else (500, "Failed to delete comment")

/-- Embedding of `DELETE /api/comment/:id` (server.js 401-453).  The handler
issues only the `youtube.comments.delete` call: no existence-check read. -/
def deleteCommentHandler (commentId : String) (tokenValid : Bool)
    (deleteRes : Outcome Unit) : HandlerResult :=
  if !tokenValid then
    ⟨⟨401, .err "Authentication required" "Please login again" none⟩, [], true, []⟩
  else
    match deleteRes with
    | .ok _ =>
        ⟨⟨200, .message "Comment deleted successfully"⟩, [.commentsDelete commentId],
          true, [⟨"DELETE_COMMENT", [("commentId", some commentId)]⟩]⟩
    | .thrown code msg =>
        ⟨⟨(classifyDeleteError code msg).1,
            .err "Delete failed" (classifyDeleteError code msg).2 (some msg)⟩,
          [.commentsDelete commentId], true,
          [⟨"DELETE_COMMENT_ERROR",
            [("commentId", some commentId), ("error", some msg)]⟩]⟩

/-! ## Notes search and log listing -/

/-- Case-insensitive match of one pattern character: `.` matches any
character, any other character matches up to case. -/
def patCharMatches (p c : Char) : Bool := p == '.' || p.toLower == c.toLower

/-- Does the pattern match starting at the head of `s`? -/
def patMatchesAt : List Char → List Char → Bool
  | [], _ => true
  | _ :: _, [] => false
  | p :: ps, c :: cs => patCharMatches p c && patMatchesAt ps cs

/-- Unanchored regex search: does the pattern match at some position of the
string?  Models MongoDB `{ $regex: pat, $options: "i" }` for patterns whose
only metacharacter is `.` (all other pattern characters literal). -/
def mongoRegexSearch (pat : List Char) : List Char → Bool
  | [] => patMatchesAt pat []
  | c :: cs => patMatchesAt pat (c :: cs) || mongoRegexSearch pat cs

/-- Embedding of `GET /api/notes` (server.js 470-484): a truthy query `q`
filters the store by `{ text: { $regex: q, $options: "i" } }`; otherwise all
notes are returned in store order. -/
def getNotesHandler (q : Option String) (store : List Note) : List Note :=
  if jsTruthyStr q then
    store.filter (fun n => mongoRegexSearch (q.getD "").data n.text.data)
  else store

/-- Spec-side predicate (the refinement target of the notes-search claim,
stated from the spec words, not from the source): `nd` occurs in `hay` as a
case-insensitive contiguous substring — matching at the head... -/
def ciPrefixAt : List Char → List Char → Bool
  | [], _ => true
  | _ :: _, [] => false
  | a :: as, b :: bs => a.toLower == b.toLower && ciPrefixAt as bs

/-- ... or anywhere. -/
def ciContains : List Char → List Char → Bool
  | [], nd => nd.isEmpty
  | h :: t, nd => ciPrefixAt nd (h :: t) || ciContains t nd

/-- Stable insertion of a log entry into a list sorted by `createdAt`
descending. -/
def insertByTime (e : LogEntry) : List LogEntry → List LogEntry
  | [] => [e]
  | h :: t => if h.createdAt < e.createdAt then e :: h :: t else h :: insertByTime e t

/-- Sort log entries by `createdAt` descending: the effect of
`Log.find().sort({ createdAt: -1 })`. -/
def sortLogsDesc : List LogEntry → List LogEntry
  | [] => []
  | h :: t => insertByTime h (sortLogsDesc t)

/-- Embedding of `GET /api/logs` (server.js 487-498). -/
def getLogsHandler (store : List LogEntry) : List LogEntry := sortLogsDesc store

/-- The list is sorted by `createdAt` descending. -/
def logSortedDesc : List LogEntry → Bool
  | [] => true
  | [_] => true
  | a :: b :: t => decide (b.createdAt ≤ a.createdAt) && logSortedDesc (b :: t)

/-! ## Theorems -/

/-- Once validation has passed, the add-comment handler always consults the
Token Manager, whatever the token state and platform outcomes. -/
theorem addComment_checks_token (vid s : String) (tv : Bool)
    (cr : Outcome (List Video)) (ir : Outcome String)
    (h1 : ¬ jsTrim s = "") (h2 : ¬ s.length > 10000) :
    (addCommentHandler vid (some s) tv cr ir).tokenChecked = true := by
  simp only [addCommentHandler, if_neg h1, if_neg h2]
  cases tv
  · rfl
  · cases cr with
    | ok items =>
        cases items with
        | nil => rfl
        | cons a l => cases ir <;> rfl
    | thrown c m => rfl

/-- Once validation has passed, the reply handler always consults the Token
Manager. -/
theorem replyComment_checks_token (cid s : String) (tv : Bool)
    (ir : Outcome String)
    (h1 : ¬ jsTrim s = "") (h2 : ¬ s.length > 10000) :
    (replyCommentHandler cid (some s) tv ir).tokenChecked = true := by
  simp only [replyCommentHandler, if_neg h1, if_neg h2]
  cases tv
  · rfl
  · cases ir <;> rfl

/-- C3: on every protected endpoint — GET video, PUT video, add comment,
reply, delete comment — a false return from `ensureValidToken` produces
HTTP 401 with the auth-required error body and no platform call.  For PUT
video and the comment/reply endpoints the hypotheses say input validation
passed, since validation precedes the token check. -/
theorem protected_endpoints_401 (vid cid t : String) (title descr : Option String)
    (lr cr : Outcome (List Video)) (ur ir ir2 : Outcome String) (dr : Outcome Unit)
    (hv : jsTruthyStr title = true ∨ jsTruthyStr descr = true)
    (ht : jsTrim t ≠ "" ∧ t.length ≤ 10000) :
    (getVideoHandler vid false lr =
      ⟨⟨401, .err "Authentication required" "Please login again" none⟩, [], true, []⟩) ∧
    (putVideoHandler vid title descr false lr ur =
      ⟨⟨401, .err "Authentication required" "Please login again" none⟩, [], true, []⟩) ∧
    (addCommentHandler vid (some t) false cr ir =
      ⟨⟨401, .err "Authentication required" "Please login again" none⟩, [], true, []⟩) ∧
    (replyCommentHandler cid (some t) false ir2 =
      ⟨⟨401, .err "Authentication required" "Please login again" none⟩, [], true, []⟩) ∧
    (deleteCommentHandler cid false dr =
      ⟨⟨401, .err "Authentication required" "Please login again" none⟩, [], true, []⟩) := by
  refine ⟨rfl, ?_, ?_, ?_, rfl⟩
  · rcases hv with h | h <;> simp [putVideoHandler, h]
  · have h2 : ¬ t.length > 10000 := by omega
    simp only [addCommentHandler, if_neg ht.1, if_neg h2]
    rfl
  · have h2 : ¬ t.length > 10000 := by omega
    simp only [replyCommentHandler, if_neg ht.1, if_neg h2]
    rfl

/-- Closed instance of `protected_endpoints_401`: on GET video an invalid
token yields the 401 auth-required response with no platform call. -/
theorem protected_endpoints_401_witness :
    getVideoHandler "v1" false (Outcome.ok []) =
      ⟨⟨401, .err "Authentication required" "Please login again" none⟩, [], true, []⟩ :=
  (protected_endpoints_401 "v1" "c1" "hi" (some "T") none (.ok []) (.ok [])
    (.ok "") (.ok "") (.ok "") (.ok ()) (Or.inl (by decide)) (by decide)).1

/-- C4: comment and reply text validation.  Absent text, text trimming to
the empty string (this covers empty and whitespace-only text), and text
longer than 10000 characters are each rejected with HTTP 400 before the
Token Manager or the platform is touched; text that is not blank and has
length at most 10000 (in particular exactly 10000) passes validation and
reaches the token check. -/
theorem comment_reply_validation (vid cid s : String) (tv : Bool)
    (cr : Outcome (List Video)) (ir ir2 : Outcome String) :
    ((addCommentHandler vid none tv cr ir).response.status = 400 ∧
      (addCommentHandler vid none tv cr ir).calls = [] ∧
      (addCommentHandler vid none tv cr ir).tokenChecked = false ∧
      (replyCommentHandler cid none tv ir2).response.status = 400 ∧
      (replyCommentHandler cid none tv ir2).calls = [] ∧
      (replyCommentHandler cid none tv ir2).tokenChecked = false) ∧
    (jsTrim s = "" →
      (addCommentHandler vid (some s) tv cr ir).response.status = 400 ∧
      (addCommentHandler vid (some s) tv cr ir).calls = [] ∧
      (addCommentHandler vid (some s) tv cr ir).tokenChecked = false ∧
      (replyCommentHandler cid (some s) tv ir2).response.status = 400 ∧
      (replyCommentHandler cid (some s) tv ir2).calls = [] ∧
      (replyCommentHandler cid (some s) tv ir2).tokenChecked = false) ∧
    (s.length > 10000 →
      (addCommentHandler vid (some s) tv cr ir).response.status = 400 ∧
      (addCommentHandler vid (some s) tv cr ir).calls = [] ∧
      (addCommentHandler vid (some s) tv cr ir).tokenChecked = false ∧
      (replyCommentHandler cid (some s) tv ir2).response.status = 400 ∧
      (replyCommentHandler cid (some s) tv ir2).calls = [] ∧
      (replyCommentHandler cid (some s) tv ir2).tokenChecked = false) ∧
    (jsTrim s ≠ "" → s.length ≤ 10000 →
      (addCommentHandler vid (some s) tv cr ir).tokenChecked = true ∧
      (replyCommentHandler cid (some s) tv ir2).tokenChecked = true) := by
  refine ⟨⟨rfl, rfl, rfl, rfl, rfl, rfl⟩, fun h => ?_, fun h => ?_, fun h1 h2 => ?_⟩
  · simp only [addCommentHandler, replyCommentHandler, if_pos h]
    exact ⟨trivial, trivial, trivial, trivial, trivial, trivial⟩
  · by_cases he : jsTrim s = ""
    · simp only [addCommentHandler, replyCommentHandler, if_pos he]
      exact ⟨trivial, trivial, trivial, trivial, trivial, trivial⟩
    · simp only [addCommentHandler, replyCommentHandler, if_neg he, if_pos h]
      exact ⟨trivial, trivial, trivial, trivial, trivial, trivial⟩
  · exact ⟨addComment_checks_token vid s tv cr ir h1 (by omega),
      replyComment_checks_token cid s tv ir2 h1 (by omega)⟩

/-- Closed instance of `comment_reply_validation`: whitespace-only comment
text is rejected with 400 and no platform call. -/
theorem comment_reply_validation_witness :
    (addCommentHandler "v1" (some "   ") true (Outcome.ok []) (Outcome.ok "")).response.status
      = 400 :=
  ((comment_reply_validation "v1" "c1" "   " true (.ok []) (.ok "") (.ok "")).2.1
    (by decide)).1

/-- Inserting into a `createdAt`-descending sorted list keeps it sorted. -/
theorem insertByTime_sorted (e : LogEntry) :
    ∀ l : List LogEntry, logSortedDesc l = true → logSortedDesc (insertByTime e l) = true := by
  intro l
  induction l with
  | nil => intro _; rfl
  | cons a t ih =>
      intro h
      by_cases hc : a.createdAt < e.createdAt
      · simp only [insertByTime, if_pos hc, logSortedDesc, Bool.and_eq_true,
          decide_eq_true_eq]
        exact ⟨Nat.le_of_lt hc, h⟩
      · simp only [insertByTime, if_neg hc]
        cases t with
        | nil =>
            simp only [insertByTime, logSortedDesc, Bool.and_eq_true, decide_eq_true_eq]
            exact ⟨by omega, trivial⟩
        | cons b t2 =>
            simp only [logSortedDesc, Bool.and_eq_true, decide_eq_true_eq] at h
            have hin := ih h.2
            by_cases hc2 : b.createdAt < e.createdAt
            · simp only [insertByTime, if_pos hc2, logSortedDesc, Bool.and_eq_true,
                decide_eq_true_eq]
              exact ⟨by omega, by omega, h.2⟩
            · rw [insertByTime, if_neg hc2] at hin
              simp only [insertByTime, if_neg hc2, logSortedDesc, Bool.and_eq_true,
                decide_eq_true_eq]
              exact ⟨h.1, hin⟩

/-- `sortLogsDesc` sorts. -/
theorem sortLogsDesc_sorted : ∀ l : List LogEntry, logSortedDesc (sortLogsDesc l) = true
  | [] => rfl
  | h :: t => insertByTime_sorted h (sortLogsDesc t) (sortLogsDesc_sorted t)

/-- Insertion produces a permutation of the cons. -/
theorem insertByTime_perm (e : LogEntry) :
    ∀ l : List LogEntry, (insertByTime e l).Perm (e :: l) := by
  intro l
  induction l with
  | nil => exact List.Perm.refl _
  | cons a t ih =>
      by_cases hc : a.createdAt < e.createdAt
      · simp only [insertByTime, if_pos hc]
        exact List.Perm.refl _
      · simp only [insertByTime, if_neg hc]
        exact (ih.cons a).trans (List.Perm.swap e a t)

/-- `sortLogsDesc` permutes the store. -/
theorem sortLogsDesc_perm : ∀ l : List LogEntry, (sortLogsDesc l).Perm l
  | [] => List.Perm.refl _
  | h :: t => (insertByTime_perm h (sortLogsDesc t)).trans ((sortLogsDesc_perm t).cons h)

/-- C8: `GET /api/logs` returns the stored entries — a permutation of the
store — sorted by `createdAt` descending; in particular three entries
created at times t1 < t2 < t3 come back in the order [t3, t2, t1]. -/
theorem logs_newest_first :
    (∀ store : List LogEntry,
      logSortedDesc (getLogsHandler store) = true ∧ (getLogsHandler store).Perm store) ∧
    (∀ e1 e2 e3 : LogEntry, e1.createdAt < e2.createdAt → e2.createdAt < e3.createdAt →
      getLogsHandler [e1, e2, e3] = [e3, e2, e1]) := by
  refine ⟨fun store => ⟨sortLogsDesc_sorted store, sortLogsDesc_perm store⟩, ?_⟩
  intro e1 e2 e3 h12 h23
  have h1 : ¬ e3.createdAt < e2.createdAt := by omega
  have h2 : ¬ e3.createdAt < e1.createdAt := by omega
  have h3 : ¬ e2.createdAt < e1.createdAt := by omega
  simp only [getLogsHandler, sortLogsDesc, insertByTime, if_neg h1, if_neg h2, if_neg h3]

/-- Closed instance of `logs_newest_first` at three concrete entries. -/
theorem logs_newest_first_witness :
    getLogsHandler [⟨⟨"A", []⟩, 1⟩, ⟨⟨"B", []⟩, 2⟩, ⟨⟨"C", []⟩, 3⟩] =
      [⟨⟨"C", []⟩, 3⟩, ⟨⟨"B", []⟩, 2⟩, ⟨⟨"A", []⟩, 1⟩] :=
  logs_newest_first.2 ⟨⟨"A", []⟩, 1⟩ ⟨⟨"B", []⟩, 2⟩ ⟨⟨"C", []⟩, 3⟩ (by decide) (by decide)

/-- With no `.` in the pattern, anchored pattern matching is exactly
case-insensitive prefix matching. -/
theorem patMatchesAt_eq_ciPrefixAt :
    ∀ pat s : List Char, '.' ∉ pat → patMatchesAt pat s = ciPrefixAt pat s := by
  intro pat
  induction pat with
  | nil => intro s _; cases s <;> rfl
  | cons p ps ih =>
      intro s hnd
      have hpn : p ≠ '.' := by
        intro h
        exact hnd (by rw [h]; exact List.mem_cons_self '.' ps)
      have hp : (p == '.') = false := by simp [hpn]
      cases s with
      | nil => rfl
      | cons c cs =>
          simp only [patMatchesAt, ciPrefixAt, patCharMatches, hp, Bool.false_or]
          rw [ih cs (fun hm => hnd (List.mem_cons_of_mem p hm))]

/-- With no `.` in the pattern, the unanchored regex search is exactly
case-insensitive substring containment. -/
theorem mongoRegexSearch_eq_ciContains :
    ∀ (pat s : List Char), '.' ∉ pat → mongoRegexSearch pat s = ciContains s pat := by
  intro pat s hnd
  induction s with
  | nil =>
      rw [mongoRegexSearch, patMatchesAt_eq_ciPrefixAt pat [] hnd, ciContains]
      cases pat <;> rfl
  | cons c cs ih =>
      rw [mongoRegexSearch, ciContains, patMatchesAt_eq_ciPrefixAt pat (c :: cs) hnd, ih]

/-- C7 counterexample: with `q = "a.c"` — a value containing the regex
metacharacter `.` — the notes filter returns the note with text "abc" even
though "a.c" is not a substring of "abc": the handler filters by regex
match, not substring containment. -/
theorem notes_search_counterexample :
    getNotesHandler (some "a.c") [⟨none, "abc", []⟩] = [⟨none, "abc", []⟩] ∧
    ciContains "abc".data "a.c".data = false :=
  ⟨by decide, by decide⟩

/-- C7 (amended): the `q` filter is case-insensitive regex match over note
text.  For every `q` free of regex metacharacters (in the modelled pattern
language: no `.`) it coincides with case-insensitive substring
containment, and omitting `q` returns the whole store in store order. -/
theorem notes_search_amended (q : String) (store : List Note) (hq : '.' ∉ q.data) :
    getNotesHandler (some q) store =
      store.filter (fun n => ciContains n.text.data q.data) ∧
    getNotesHandler none store = store := by
  refine ⟨?_, rfl⟩
  by_cases h : q = ""
  · subst h
    simp only [getNotesHandler, jsTruthyStr]
    rw [if_neg (by simp)]
    symm
    rw [List.filter_eq_self]
    intro a _
    cases a.text.data <;> rfl
  · simp only [getNotesHandler, jsTruthyStr, Option.getD]
    rw [if_pos (by simpa using h)]
    exact List.filter_congr fun n _ => mongoRegexSearch_eq_ciContains q.data n.text.data hq

/-- Closed instance of `notes_search_amended`: a metacharacter-free query
returns exactly the notes containing it case-insensitively. -/
theorem notes_search_amended_witness :
    getNotesHandler (some "foo") [⟨none, "xFooy", []⟩, ⟨none, "bar", []⟩] =
      [⟨none, "xFooy", []⟩] :=
  ((notes_search_amended "foo" [⟨none, "xFooy", []⟩, ⟨none, "bar", []⟩]
    (by decide)).1).trans (by decide)

/-- C9: `PUT /api/video/:id` rejects with HTTP 400 — before the token check
and without any platform call — exactly when both `title` and `description`
are absent or empty (JS falsy); otherwise the snippet sent to
`videos.update` takes each supplied field from the request and keeps every
current snippet value for a field not supplied, and because the merge uses
JS `||` an empty-string field is replaced by the current value exactly like
an absent one. -/
theorem put_video_merge (vid : String) (title descr : Option String)
    (v : Video) (items : List Video) (ur : Outcome String) :
    ((¬ jsTruthyStr title = true ∧ ¬ jsTruthyStr descr = true) →
      putVideoHandler vid title descr true (Outcome.ok items) ur =
        ⟨⟨400, .err "Invalid input" "Title or description is required" none⟩,
          [], false, []⟩) ∧
    ((jsTruthyStr title = true ∨ jsTruthyStr descr = true) →
      (putVideoHandler vid title descr true (Outcome.ok (v :: items)) ur).calls =
        [.videosList "snippet" vid,
         .videosUpdate vid
           ⟨jsOrStr title v.snippet.title, jsOrStr descr v.snippet.description,
            v.snippet.categoryId⟩]) ∧
    (∀ b : String, jsOrStr (some "") b = b ∧ jsOrStr none b = b) := by
  refine ⟨fun h => ?_, fun h => ?_, fun b => ⟨rfl, rfl⟩⟩
  · have e1 : jsTruthyStr title = false := by
      cases htv : jsTruthyStr title with
      | false => rfl
      | true => exact absurd htv h.1
    have e2 : jsTruthyStr descr = false := by
      cases htv : jsTruthyStr descr with
      | false => rfl
      | true => exact absurd htv h.2
    simp [putVideoHandler, e1, e2]
  · have hcond : (!jsTruthyStr title && !jsTruthyStr descr) = false := by
      rcases h with h | h <;> simp [h]
    simp only [putVideoHandler, hcond, Bool.false_eq_true, if_false]
    cases ur <;> rfl

/-- Closed instance of `put_video_merge`: supplying only a title keeps the
current description and category. -/
theorem put_video_merge_witness :
    (putVideoHandler "v1" (some "New") none true
        (Outcome.ok [⟨"v1", ⟨"Old", "Desc", "22"⟩⟩]) (Outcome.ok "ok")).calls =
      [PlatformCall.videosList "snippet" "v1",
       PlatformCall.videosUpdate "v1" ⟨"New", "Desc", "22"⟩] :=
  ((put_video_merge "v1" (some "New") none ⟨"v1", ⟨"Old", "Desc", "22"⟩⟩ []
    (Outcome.ok "ok")).2.1 (Or.inl (by decide))).trans (by decide)

/-- C5 counterexample: on `GET /api/video/:id` a platform failure reported
with status code 404 is answered with HTTP 500 — not 404 — and the error
body carries only `error` and `message`, no `details` field: this endpoint
has no status-code classification at all. -/
theorem error_mapping_counterexample :
    (getVideoHandler "v1" true (Outcome.thrown 404 "Not Found")).response.status = 500 ∧
    (getVideoHandler "v1" true (Outcome.thrown 404 "Not Found")).response.body =
      Body.err "Failed to fetch video" "Not Found" none :=
  ⟨rfl, rfl⟩

/-- C5 (amended): only the comment endpoints classify platform failures by
status code.  Add comment, reply and delete respond with their classifier's
status and a three-field body `{error, message, details}` whose `details`
is the platform message; the classifiers map 401→401, 403→403, plain
400→400; reply and delete also map 404→404 while add comment has no 404
branch (a thrown 404 yields 500); any other code yields 500.  GET and PUT
video instead answer every platform failure with 500 and a two-field body
`{error, message}` with no `details`. -/
theorem error_mapping_amended (vid cid t : String) (code : Nat) (msg : String)
    (title descr : Option String) (v : Video) (items : List Video) (ur : Outcome String)
    (ht : jsTrim t ≠ "" ∧ t.length ≤ 10000)
    (hv : jsTruthyStr title = true ∨ jsTruthyStr descr = true) :
    (getVideoHandler vid true (.thrown code msg) =
      ⟨⟨500, .err "Failed to fetch video" msg none⟩,
        [.videosList "snippet,statistics" vid], true,
        [⟨"FETCH_VIDEO_ERROR", [("videoId", some vid), ("error", some msg)]⟩]⟩) ∧
    ((putVideoHandler vid title descr true (.thrown code msg) ur).response =
      ⟨500, .err "Failed to update video" msg none⟩) ∧
    ((addCommentHandler vid (some t) true (.ok (v :: items)) (.thrown code msg)).response =
      ⟨(classifyAddCommentError code msg).1,
        .err "Comment failed" (classifyAddCommentError code msg).2 (some msg)⟩) ∧
    ((replyCommentHandler cid (some t) true (.thrown code msg)).response =
      ⟨(classifyReplyError code msg).1,
        .err "Reply failed" (classifyReplyError code msg).2 (some msg)⟩) ∧
    ((deleteCommentHandler cid true (.thrown code msg)).response =
      ⟨(classifyDeleteError code msg).1,
        .err "Delete failed" (classifyDeleteError code msg).2 (some msg)⟩) ∧
    ((classifyReplyError 400 msg).1 = 400 ∧ (classifyReplyError 401 msg).1 = 401 ∧
      (classifyReplyError 403 msg).1 = 403 ∧ (classifyReplyError 404 msg).1 = 404 ∧
      (code ∉ ([400, 401, 403, 404] : List Nat) → (classifyReplyError code msg).1 = 500)) ∧
    ((classifyDeleteError 400 msg).1 = 400 ∧ (classifyDeleteError 401 msg).1 = 401 ∧
      (classifyDeleteError 403 msg).1 = 403 ∧ (classifyDeleteError 404 msg).1 = 404 ∧
      (code ∉ ([400, 401, 403, 404] : List Nat) → (classifyDeleteError code msg).1 = 500)) ∧
    ((classifyAddCommentError 401 msg).1 = 401 ∧ (classifyAddCommentError 403 msg).1 = 403 ∧
      (classifyAddCommentError 404 msg).1 = 500 ∧
      (code ∉ ([400, 401, 403] : List Nat) → (classifyAddCommentError code msg).1 = 500)) := by
  have hlen : ¬ t.length > 10000 := by omega
  refine ⟨rfl, ?_, ?_, ?_, ?_, ?_, ?_, ?_⟩
  · have hcond : (!jsTruthyStr title && !jsTruthyStr descr) = false := by
      rcases hv with h | h <;> simp [h]
    simp only [putVideoHandler, hcond, Bool.false_eq_true, if_false]
    rfl
  · simp only [addCommentHandler, if_neg ht.1, if_neg hlen]
    rfl
  · simp only [replyCommentHandler, if_neg ht.1, if_neg hlen]
    rfl
  · rfl
  · refine ⟨rfl, rfl, rfl, rfl, fun hc => ?_⟩
    simp only [List.mem_cons, List.not_mem_nil, or_false, not_or] at hc
    obtain ⟨h1, h2, h3, h4⟩ := hc
    simp [classifyReplyError, h1, h2, h3, h4]
  · refine ⟨rfl, rfl, rfl, rfl, fun hc => ?_⟩
    simp only [List.mem_cons, List.not_mem_nil, or_false, not_or] at hc
    obtain ⟨h1, h2, h3, h4⟩ := hc
    simp [classifyDeleteError, h1, h2, h3, h4]
  · refine ⟨rfl, rfl, rfl, fun hc => ?_⟩
    simp only [List.mem_cons, List.not_mem_nil, or_false, not_or] at hc
    obtain ⟨h1, h2, h3⟩ := hc
    simp [classifyAddCommentError, h1, h2, h3]

/-- Closed instance of `error_mapping_amended`: a thrown 503 on the delete
endpoint maps to 500 with a three-field error body. -/
theorem error_mapping_amended_witness :
    (deleteCommentHandler "c1" true (Outcome.thrown 503 "backendError")).response =
      ⟨500, Body.err "Delete failed" "Failed to delete comment" (some "backendError")⟩ :=
  ((error_mapping_amended "v1" "c1" "hi" 503 "backendError" (some "T") none
    ⟨"v1", ⟨"a", "b", "c"⟩⟩ [] (Outcome.ok "ok") (by decide)
    (Or.inl (by decide))).2.2.2.2.1).trans (by decide)

/-- C6 counterexample: with a valid token and successful outcomes, the only
platform call a reply issues is the `comments.insert` mutation itself, and
the only call a delete issues is the `comments.delete` itself — neither is
preceded by a read call confirming the resource exists. -/
theorem existence_check_counterexample :
    (replyCommentHandler "c1" (some "hi") true (Outcome.ok "d")).calls =
      [PlatformCall.commentsInsert "c1" "hi"] ∧
    (deleteCommentHandler "c1" true (Outcome.ok ())).calls =
      [PlatformCall.commentsDelete "c1"] :=
  ⟨by decide, by decide⟩

/-- C6 (amended): GET video, PUT video and add comment issue a
`videos.list` read and answer 404 when the platform reports no items, but
reply and delete issue no read at all — no `videosList` call ever appears
in their traces, whatever the inputs — and report a missing resource only
through the mutation call itself, answering 404 when it throws code 404. -/
theorem existence_check_amended (vid cid t : String) (ur ir : Outcome String)
    (msg : String) (ht : jsTrim t ≠ "" ∧ t.length ≤ 10000) :
    (getVideoHandler vid true (Outcome.ok []) =
      ⟨⟨404, .err "Video not found" "No video found with the provided ID" none⟩,
        [.videosList "snippet,statistics" vid], true, []⟩) ∧
    (putVideoHandler vid (some "T") none true (Outcome.ok []) ur =
      ⟨⟨404, .err "Video not found" "No video found with the provided ID" none⟩,
        [.videosList "snippet" vid], true, []⟩) ∧
    (addCommentHandler vid (some t) true (Outcome.ok []) ir =
      ⟨⟨404, .err "Video not found" "No video found with the provided ID" none⟩,
        [.videosList "snippet,status" vid], true, []⟩) ∧
    (∀ (txt : Option String) (tv : Bool) (ir2 : Outcome String) (dr : Outcome Unit)
        (p i : String),
      PlatformCall.videosList p i ∉ (replyCommentHandler cid txt tv ir2).calls ∧
      PlatformCall.videosList p i ∉ (deleteCommentHandler cid tv dr).calls) ∧
    ((replyCommentHandler cid (some t) true (Outcome.thrown 404 msg)).response.status
        = 404 ∧
      (deleteCommentHandler cid true (Outcome.thrown 404 msg)).response.status = 404) := by
  have hlen : ¬ t.length > 10000 := by omega
  refine ⟨rfl, rfl, ?_, ?_, ?_, ?_⟩
  · simp only [addCommentHandler, if_neg ht.1, if_neg hlen]
    rfl
  · intro txt tv ir2 dr p i
    constructor
    · cases txt with
      | none => simp [replyCommentHandler]
      | some s =>
          by_cases h1 : jsTrim s = ""
          · simp [replyCommentHandler, h1]
          · by_cases h2 : s.length > 10000
            · simp [replyCommentHandler, h1, h2]
            · cases tv
              · simp [replyCommentHandler, h1, h2]
              · cases ir2 <;> simp [replyCommentHandler, h1, h2]
    · cases tv
      · simp [deleteCommentHandler]
      · cases dr <;> simp [deleteCommentHandler]
  · simp only [replyCommentHandler, if_neg ht.1, if_neg hlen]
    rfl
  · rfl

/-- Closed instance of `existence_check_amended`: add comment answers 404
when the existence-check read returns no items. -/
theorem existence_check_amended_witness :
    addCommentHandler "v1" (some "hi") true (Outcome.ok []) (Outcome.ok "d") =
      ⟨⟨404, Body.err "Video not found" "No video found with the provided ID" none⟩,
        [PlatformCall.videosList "snippet,status" "v1"], true, []⟩ :=
  (existence_check_amended "v1" "c1" "hi" (Outcome.ok "u") (Outcome.ok "d") "m"
    (by decide)).2.2.1

/-- Ten thousand copies of the letter a followed by one trailing space: a
text of length 10001 whose trimmed length is exactly 10000. -/
def spaceyText : String := String.mk (List.replicate 10000 'a' ++ [' '])

/-- Trimming n+1 letters plus a trailing space drops exactly the space. -/
theorem trimChars_replicate_space (n : Nat) :
    trimChars (List.replicate (n + 1) 'a' ++ [' ']) = List.replicate (n + 1) 'a' := by
  have ha : Char.isWhitespace 'a' = false := by decide
  have hs : Char.isWhitespace ' ' = true := by decide
  have hrev : (List.replicate (n + 1) 'a').reverse = List.replicate (n + 1) 'a' :=
    List.reverse_replicate (n + 1) 'a'
  unfold trimChars
  rw [List.replicate_succ, List.cons_append, List.dropWhile_cons, ha]
  simp only [Bool.false_eq_true, if_false]
  rw [← List.cons_append, ← List.replicate_succ, List.reverse_append, hrev,
    List.reverse_singleton, List.singleton_append, List.dropWhile_cons, hs]
  simp only [if_true]
  rw [List.replicate_succ, List.dropWhile_cons, ha]
  simp only [Bool.false_eq_true, if_false]
  rw [← List.replicate_succ, hrev]

/-- The length and trimmed form of `spaceyText`. -/
theorem spaceyText_facts :
    spaceyText.length = 10001 ∧ jsTrim spaceyText = String.mk (List.replicate 10000 'a') := by
  constructor
  · show (List.replicate 10000 'a' ++ [' ']).length = 10001
    rw [List.length_append, List.length_replicate]
    rfl
  · show String.mk (trimChars (List.replicate 10000 'a' ++ [' '])) = _
    rw [show (10000 : Nat) = 9999 + 1 from rfl, trimChars_replicate_space 9999]

/-- C10: a comment or reply that passes validation sends the trimmed text
to the platform while the activity log keeps the untrimmed original; the
10000-character limit is checked on the untrimmed text, so any text longer
than 10000 characters is rejected with 400 — in particular `spaceyText`,
10000 non-whitespace characters plus one trailing space (untrimmed length
10001, trimmed length exactly 10000), is rejected. -/
theorem trimmed_comment_text (vid cid t : String) (v : Video) (items : List Video)
    (ht : jsTrim t ≠ "" ∧ t.length ≤ 10000) :
    ((addCommentHandler vid (some t) true (Outcome.ok (v :: items)) (Outcome.ok "d")).calls =
        [.videosList "snippet,status" vid, .commentThreadsInsert vid (jsTrim t)] ∧
      (addCommentHandler vid (some t) true (Outcome.ok (v :: items)) (Outcome.ok "d")).logs =
        [⟨"ADD_COMMENT", [("videoId", some vid), ("text", some t)]⟩]) ∧
    ((replyCommentHandler cid (some t) true (Outcome.ok "d")).calls =
        [.commentsInsert cid (jsTrim t)] ∧
      (replyCommentHandler cid (some t) true (Outcome.ok "d")).logs =
        [⟨"REPLY_COMMENT", [("commentId", some cid), ("text", some t)]⟩]) ∧
    (∀ (s : String) (tv : Bool) (cr : Outcome (List Video)) (ir ir2 : Outcome String),
      s.length > 10000 →
        (addCommentHandler vid (some s) tv cr ir).response.status = 400 ∧
        (replyCommentHandler cid (some s) tv ir2).response.status = 400) ∧
    (spaceyText.length = 10001 ∧ (jsTrim spaceyText).length = 10000 ∧
      (addCommentHandler vid (some spaceyText) true (Outcome.ok (v :: items))
          (Outcome.ok "d")).response.status = 400 ∧
      (replyCommentHandler cid (some spaceyText) true (Outcome.ok "d")).response.status
        = 400) := by
  have hlen : ¬ t.length > 10000 := by omega
  have h10000 : (jsTrim spaceyText).length = 10000 := by
    rw [spaceyText_facts.2]
    exact List.length_replicate 10000 'a'
  have hne : jsTrim spaceyText ≠ "" := by
    intro h
    rw [h] at h10000
    simp at h10000
  have hbig : spaceyText.length > 10000 := by
    rw [spaceyText_facts.1]
    omega
  refine ⟨⟨?_, ?_⟩, ⟨?_, ?_⟩, ?_, spaceyText_facts.1, h10000, ?_, ?_⟩
  · simp [addCommentHandler, if_neg ht.1, if_neg hlen]
  · simp [addCommentHandler, if_neg ht.1, if_neg hlen]
  · simp [replyCommentHandler, if_neg ht.1, if_neg hlen]
  · simp [replyCommentHandler, if_neg ht.1, if_neg hlen]
  · intro s tv cr ir ir2 hs
    by_cases he : jsTrim s = ""
    · constructor <;> simp [addCommentHandler, replyCommentHandler, he]
    · constructor <;> simp [addCommentHandler, replyCommentHandler, he, hs]
  · simp [addCommentHandler, if_neg hne, if_pos hbig]
  · simp [replyCommentHandler, if_neg hne, if_pos hbig]

/-- Closed instance of `trimmed_comment_text`: the text " hi " is sent to
the platform as "hi". -/
theorem trimmed_comment_text_witness :
    (addCommentHandler "v1" (some " hi ") true
        (Outcome.ok [⟨"v1", ⟨"a", "b", "c"⟩⟩]) (Outcome.ok "d")).calls =
      [PlatformCall.videosList "snippet,status" "v1",
       PlatformCall.commentThreadsInsert "v1" "hi"] :=
  ((trimmed_comment_text "v1" "c1" " hi " ⟨"v1", ⟨"a", "b", "c"⟩⟩ []
    (by decide)).1.1).trans (by decide)
